import Mathlib

/-!
# Verification of the BLDC state-manager (`BLDC_sm.c`)

Shallow embedding of the motor state-manager: the commutation-timing ramp
(`timing_ramp_control`), the closed-loop corrector (`BL_cl_control`), the
control-task state machine (`BL_State_Ctrl`), the speed setpoint entry point
(`BL_set_speed`), reset (`BL_reset`) and the commutation step dispatcher
(`BL_Commutation_Step`).

Machine integers are modelled as `Nat` (unsigned 16-bit, with explicit
`% 65536` where the C arithmetic can wrap) and `Int` (the signed 16-bit
timing error).  The sensing collaborator (`Seq_get_timing_error_p` /
`Seq_get_timing_error`) is modelled as an `Option Int` input to each tick:
`none` when no timing-error sample is available, `some e` otherwise.
-/

namespace BLDC

/-! ## Compile-time constants -/

/-- Source: `U16_MAX`: maximum unsigned 16-bit value. -/
def U16_MAX : Nat := 65535

/-- Source: `CTRL_RATEM = 4` (control rate scalar, `BLDC_sm.c`). -/
def CTRL_RATEM : Nat := 4

/-- Source: `(uint16_t)BL_ONE_RAMP_UNIT = (uint16_t)(1.5 * CTRL_RATEM * CTIME_SCALAR)`.
`CTIME_SCALAR = 1.0` is pinned by the source's own hex annotations:
`BL_CT_RAMP_START = 5632.0 * CTIME_SCALAR // $1600` (= 5632), so the cast
yields `(uint16_t)6.0 = 6`. -/
def BL_ONE_RAMP_UNIT : Nat := 6

/-- Source: `BL_CT_RAMP_START = (uint16_t)(5632.0 * CTIME_SCALAR)` = `$1600`. -/
def BL_CT_RAMP_START : Nat := 5632

/-- Source: `BL_CT_RAMP_END = (uint16_t)(1760.0 * CTIME_SCALAR)` = `$06E0`. -/
def BL_CT_RAMP_END : Nat := 1760

/-- Source: `BL_CT_STARTUP = (uint16_t)(1866.0 * CTIME_SCALAR)` = `$074A`. -/
def BL_CT_STARTUP : Nat := 1866

/-- Source: `BL_TIME_ALIGN = 200` control frames. -/
def BL_TIME_ALIGN : Nat := 200

/-- Source: `ERROR_LIMIT = 50` (bound used in `BL_cl_control`). -/
def ERROR_LIMIT : Int := 50

/-- Source: `PROP_GAIN = 10` (inverse proportional gain in `BL_cl_control`). -/
def PROP_GAIN : Int := 10

/-- Source: `CL_FAULT_CNTR = 2000` (fault hysteresis depth in the CLOSED_LOOP branch). -/
def CL_FAULT_CNTR : Nat := 2000

/-- Source: `FAULT_DECR = 1` (per-tick hysteresis decrement). -/
def FAULT_DECR : Nat := 1

/-- Modelled from the spec: `PWM_GET_PULSE_COUNTS` lives in the missing
`pwm_stm8s.h` ("convert percent to timer counts"); per the source comment the
precision is 1/TIM2_PWM_PD = 0.4% per count, i.e. 2.5 counts per percent.
`PWM_PD_ARMING = (uint16_t)(8.5 * 2.5)`. The claims settled here do not
depend on these duty values, only on `PWM_PD_SHUTOFF < PWM_PD_STARTUP`. -/
def PWM_PD_ARMING : Nat := 21

/-- Modelled from the spec (see `PWM_PD_ARMING`): `25.0%` alignment duty. -/
def PWM_PD_ALIGN : Nat := 62

/-- Modelled from the spec (see `PWM_PD_ARMING`): `14.0%` rampup duty. -/
def PWM_PD_RAMPUP : Nat := 35

/-- Modelled from the spec (see `PWM_PD_ARMING`): `12.0%` startup duty,
the `startup_threshold` of `set_speed`. -/
def PWM_PD_STARTUP : Nat := 30

/-- Modelled from the spec (see `PWM_PD_ARMING`): `9.0%` shutoff duty,
the `shutoff_threshold` of `set_speed`. -/
def PWM_PD_SHUTOFF : Nat := 22

/-- Source: `ARMING_TIME_TOTAL = 0x0900`. -/
def ARMING_TIME_TOTAL : Nat := 0x0900

/-- Source: `ARMING_TIME_DELAY = 0x0200`. -/
def ARMING_TIME_DELAY : Nat := 0x0200

/-- Source: `ARMING_TIME_MASK = 0x01C0`. -/
def ARMING_TIME_MASK : Nat := 0x01C0

/-- Source: `ARMING_BL_TIMING = 0x0010`. -/
def ARMING_BL_TIMING : Nat := 0x0010

/-! ## Operating states

Modelled from the spec: the `BL_State_T` enumeration is declared in the
missing `bldc_sm.h`.  The spec fixes the member set {NONE, STOPPED, ARMING,
ALIGN, RAMPUP, OPEN_LOOP, CLOSED_LOOP} and notes that the default (zero)
value of the static state variable lands in ARMING, so `BL_ARMING = 0`; the
remaining numeric values are arbitrary model choices (no claim depends on
them).  The state variable itself is a `uint8_t`, so it is modelled as `Nat`
to keep the dispatcher's `default` case (unrecognized values) expressible. -/

/-- Operating state `BL_ARMING` (= 0, the implicit bootstrap value). -/
def BL_ARMING : Nat := 0

/-- Operating state `BL_ALIGN`. -/
def BL_ALIGN : Nat := 1

/-- Operating state `BL_RAMPUP`. -/
def BL_RAMPUP : Nat := 2

/-- Operating state `BL_OPN_LOOP`. -/
def BL_OPN_LOOP : Nat := 3

/-- Operating state `BL_CLS_LOOP`. -/
def BL_CLS_LOOP : Nat := 4

/-- Operating state `BL_STOPPED`. -/
def BL_STOPPED : Nat := 5

/-- Operating state `BL_NONE`. -/
def BL_NONE : Nat := 6

/-! ## State -/

/-- The mutable state of `BLDC_sm.c`: the four file-static variables, the two
function-static counters (`atimer` of the ARMING branch, `fault_counter` of
the CLOSED_LOOP branch), and the fault collaborator's status.
`faultm_status` is modelled from the spec (`faultm.c` is missing): a status
word that is nonzero iff a fault is latched; `Faultm_set` makes it nonzero,
`Faultm_init` clears it. -/
structure State where
  BL_comm_period : Nat
  BL_motor_speed : Nat
  BL_optimer : Nat
  BL_opstate : Nat
  atimer : Nat
  fault_counter : Nat
  faultm_status : Nat
  deriving DecidableEq, Repr

/-- The initial state: C statics zero-initialize, except `fault_counter`
which is explicitly initialized to `CL_FAULT_CNTR`; `faultm_status` starts
clear. Note `BL_opstate = 0 = BL_ARMING` (the implicit bootstrap). -/
def initState : State :=
  { BL_comm_period := 0, BL_motor_speed := 0, BL_optimer := 0,
    BL_opstate := 0, atimer := 0, fault_counter := CL_FAULT_CNTR,
    faultm_status := 0 }

/-- Observable side effects of one control tick: the duty cycle passed to
`PWM_set_dutycycle`, whether `All_phase_stop` was invoked, and whether
`Faultm_set` was invoked. -/
structure TickOut where
  duty : Nat
  phase_stop : Bool
  fault_reported : Bool
  deriving DecidableEq, Repr

/-! ## Ramp controller -/

/-- Source: `timing_ramp_control(current, target)` as the value written by its
`BL_set_timing` call.  The C subtraction/addition of `BL_ONE_RAMP_UNIT` is
`uint16_t` arithmetic, hence the explicit `% 65536`; the clamp to `target`
is applied after stepping, exactly as in the source. -/
def timing_ramp_control (current_setpoint target_setpoint : Nat) : Nat :=
  if current_setpoint > target_setpoint then
    let u16 := (current_setpoint + 65536 - BL_ONE_RAMP_UNIT) % 65536
    if u16 < target_setpoint then target_setpoint else u16
  else if current_setpoint < target_setpoint then
    let u16 := (current_setpoint + BL_ONE_RAMP_UNIT) % 65536
    if u16 > target_setpoint then target_setpoint else u16
  else current_setpoint

/-! ## Closed-loop corrector -/

/-- Source: `BL_cl_control(current_setpoint)` with the sensing collaborator's answer
passed in as `sample` (`none`: `Seq_get_timing_error_p() != TRUE`; `some e`:
the signed timing error).  Returns the C boolean result together with the
value written by `BL_set_timing` (`none` when the corrector does not write).
`Int.tdiv` is C's truncating division; the `uint16` store of
`current_setpoint + correction` is the nonnegative residue mod 2^16. -/
def BL_cl_control (current_setpoint : Nat) (sample : Option Int) :
    Bool × Option Nat :=
  match sample with
  | some timing_error =>
    if -ERROR_LIMIT < timing_error ∧ timing_error < ERROR_LIMIT then
      let correction : Int := Int.tdiv timing_error PROP_GAIN
      (true, some ((((current_setpoint : Int) + correction).emod 65536).toNat))
    else (false, none)
  | none => (false, none)

/-! ## Stop, reset, speed setpoint -/

/-- Source: `BL_stop()`: kills the drive signals (`All_phase_stop`, recorded by the
caller) and zeroes the commanded speed. -/
def BL_stop (s : State) : State :=
  { s with BL_motor_speed := 0 }

/-- Source: `BL_reset()`: stop, commutation period to `U16_MAX`, `Faultm_init()`
(modelled: status cleared), operating state to `BL_STOPPED`. -/
def BL_reset (s : State) : State :=
  { BL_stop s with
    BL_comm_period := U16_MAX,
    faultm_status := 0,
    BL_opstate := BL_STOPPED }

/-- Source: `BL_set_speed(v)`: new commanded speed, plus whether `BL_stop` (and its
`All_phase_stop`) was invoked. -/
def BL_set_speed (BL_motor_speed ui_mspeed_counts : Nat) : Nat × Bool :=
  if ui_mspeed_counts > PWM_PD_SHUTOFF then
    if ui_mspeed_counts > PWM_PD_STARTUP ∨ BL_motor_speed ≠ 0 then
      (ui_mspeed_counts, false)
    else
      (BL_motor_speed, false)
  else
    (0, true)

/-! ## The control task -/

/-- Source: `BL_State_Ctrl()`: one control tick.  `sample` is the sensing
collaborator's timing-error answer for this tick (see `BL_cl_control`).
Returns the post-tick state and the tick's observable outputs. -/
def BL_State_Ctrl (s : State) (sample : Option Int) : State × TickOut :=
  if s.faultm_status ≠ 0 then
    (BL_stop s, { duty := 0, phase_stop := true, fault_reported := false })
  else
    let bl_opstate := s.BL_opstate
    let inp_dutycycle := s.BL_motor_speed
    if bl_opstate = BL_ARMING then
      let s1 := { s with BL_comm_period := ARMING_BL_TIMING }
      if s1.atimer < ARMING_TIME_TOTAL then
        let atimer' := s1.atimer + 1
        let d1 := if atimer' > ARMING_TIME_DELAY then PWM_PD_ARMING else 0
        let d2 := if atimer' &&& ARMING_TIME_MASK ≠ 0 then 0 else d1
        ({ s1 with atimer := atimer' },
         { duty := d2, phase_stop := false, fault_reported := false })
      else
        (BL_reset s1,
         { duty := inp_dutycycle, phase_stop := true, fault_reported := false })
    else if bl_opstate = BL_STOPPED then
      if inp_dutycycle > 0 then
        ({ s with BL_opstate := BL_ALIGN, BL_optimer := BL_TIME_ALIGN,
                  BL_comm_period := BL_CT_RAMP_START },
         { duty := inp_dutycycle, phase_stop := false, fault_reported := false })
      else
        (s, { duty := inp_dutycycle, phase_stop := false, fault_reported := false })
    else if bl_opstate = BL_ALIGN then
      if s.BL_optimer > 0 then
        ({ s with BL_optimer := s.BL_optimer - 1 },
         { duty := PWM_PD_ALIGN, phase_stop := false, fault_reported := false })
      else
        ({ s with BL_opstate := BL_RAMPUP },
         { duty := inp_dutycycle, phase_stop := false, fault_reported := false })
    else if bl_opstate = BL_RAMPUP then
      let bl_timing_setpt := s.BL_comm_period
      let tgt_timing_setpt := BL_CT_RAMP_END
      let s1 := { s with
        BL_comm_period := timing_ramp_control bl_timing_setpt tgt_timing_setpt }
      let s2 := if bl_timing_setpt ≤ tgt_timing_setpt then
          { s1 with BL_opstate := BL_OPN_LOOP }
        else s1
      (s2, { duty := PWM_PD_RAMPUP, phase_stop := false, fault_reported := false })
    else if bl_opstate = BL_OPN_LOOP then
      let bl_timing_setpt := s.BL_comm_period
      let s1 := { s with
        BL_comm_period := timing_ramp_control bl_timing_setpt BL_CT_STARTUP }
      let r := BL_cl_control bl_timing_setpt sample
      let s2 := match r.2 with
        | some w => { s1 with BL_comm_period := w }
        | none => s1
      let s3 := if r.1 then { s2 with BL_opstate := BL_CLS_LOOP } else s2
      (s3, { duty := PWM_PD_STARTUP, phase_stop := false, fault_reported := false })
    else if bl_opstate = BL_CLS_LOOP then
      let r := BL_cl_control s.BL_comm_period sample
      let s1 := match r.2 with
        | some w => { s with BL_comm_period := w }
        | none => s
      if r.1 then
        let fc := if s1.fault_counter < CL_FAULT_CNTR then CL_FAULT_CNTR
          else s1.fault_counter
        ({ s1 with fault_counter := fc },
         { duty := inp_dutycycle, phase_stop := false, fault_reported := false })
      else
        if s1.fault_counter > 0 then
          ({ s1 with fault_counter := s1.fault_counter - FAULT_DECR },
           { duty := inp_dutycycle, phase_stop := false, fault_reported := false })
        else
          ({ s1 with faultm_status := 1 },
           { duty := inp_dutycycle, phase_stop := false, fault_reported := true })
    else
      (s, { duty := inp_dutycycle, phase_stop := false, fault_reported := false })

/-! ## Commutation step dispatcher -/

/-- The drive-primitive operation selected by the dispatcher. -/
inductive DriveOp where
  | sequenceStep0
  | sequenceStep
  | noOp
  deriving DecidableEq, Repr

/-- Source: `BL_Commutation_Step()`: maps the operating state to the drive
operation (`Sequence_Step_0`, `Sequence_Step`, or nothing). -/
def BL_Commutation_Step (opstate : Nat) : DriveOp :=
  if opstate = BL_ARMING ∨ opstate = BL_ALIGN then
    DriveOp.sequenceStep0
  else if opstate = BL_RAMPUP ∨ opstate = BL_OPN_LOOP ∨ opstate = BL_CLS_LOOP then
    DriveOp.sequenceStep
  else
    DriveOp.noOp

/-! ## Concrete states used by witnesses and counterexamples -/

/-- A healthy CLOSED_LOOP state with the hysteresis counter at its maximum. -/
def clsMaxState : State :=
  { BL_comm_period := 1800, BL_motor_speed := 30, BL_optimer := 0,
    BL_opstate := BL_CLS_LOOP, atimer := 0, fault_counter := CL_FAULT_CNTR,
    faultm_status := 0 }

/-- A healthy OPEN_LOOP state whose hysteresis counter was left at 0 by a
previous stay in CLOSED_LOOP (reachable: 2000 rejected CLOSED_LOOP ticks,
then reset and a new spin-up — neither path touches `fault_counter`). -/
def opnZeroCntrState : State :=
  { BL_comm_period := 1866, BL_motor_speed := 30, BL_optimer := 0,
    BL_opstate := BL_OPN_LOOP, atimer := 0, fault_counter := 0,
    faultm_status := 0 }

/-- A healthy RAMPUP state one ramp step above the ramp-end target. -/
def rampupNearEndState : State :=
  { BL_comm_period := 1766, BL_motor_speed := 30, BL_optimer := 0,
    BL_opstate := BL_RAMPUP, atimer := 0, fault_counter := CL_FAULT_CNTR,
    faultm_status := 0 }

/-- A CLOSED_LOOP state with a latched fault. -/
def faultedState : State :=
  { BL_comm_period := 1800, BL_motor_speed := 30, BL_optimer := 0,
    BL_opstate := BL_CLS_LOOP, atimer := 0, fault_counter := CL_FAULT_CNTR,
    faultm_status := 1 }

end BLDC

namespace BLDC

/-! ## Helper lemmas: ramp controller -/

/-- One ramp call, in the wrap-free region: max/min characterization. -/
lemma ramp_step_eq (c t : Nat) (hc : c ≤ 65535) (ht5 : 5 ≤ t) (ht : t ≤ 65530) :
    timing_ramp_control c t =
      if t < c then max t (c - BL_ONE_RAMP_UNIT)
      else if c < t then min t (c + BL_ONE_RAMP_UNIT)
      else c := by
  simp only [timing_ramp_control, BL_ONE_RAMP_UNIT]
  split_ifs <;> omega

/-- Repeated ramping reaches the target within `|c - t|` calls, in the
wrap-free region. -/
lemma ramp_converge (t : Nat) (ht5 : 5 ≤ t) (ht : t ≤ 65530) :
    ∀ n c, c ≤ 65535 → (c - t) + (t - c) ≤ n →
      (fun x => timing_ramp_control x t)^[n] c = t := by
  intro n
  induction n with
  | zero =>
    intro c hc hd
    simp only [Function.iterate_zero, id_eq]
    omega
  | succ n ih =>
    intro c hc hd
    rw [Function.iterate_succ_apply]
    show (fun x => timing_ramp_control x t)^[n] (timing_ramp_control c t) = t
    have h1 := ramp_step_eq c t hc ht5 ht
    simp only [BL_ONE_RAMP_UNIT] at h1
    apply ih
    · rw [h1]; split_ifs <;> omega
    · rw [h1]; split_ifs <;> omega

/-! ## Helper lemmas: corrector arithmetic -/

/-- The truncating division of an in-bound error by the gain is in `[-4, 4]`. -/
lemma tdiv10_bound (e : Int) (h1 : -50 < e) (h2 : e < 50) :
    -4 ≤ Int.tdiv e 10 ∧ Int.tdiv e 10 ≤ 4 := by
  interval_cases e <;> decide

/-! ## C1: ramp controller step / convergence / wraparound -/

/-- C1 counterexample: one call of `timing_ramp_control` at
`(current, target) = (3, 0)` underflows the 16-bit subtraction: the stored
period becomes 65533, which is not one step from 3 toward 0 clamped at 0, and
in particular is not between target and current — the step arithmetic does
wrap when `current` is within one step of 0 and `target` lies beyond. -/
theorem C1_ramp_counterexample :
    timing_ramp_control 3 0 = 65533 ∧ ¬ timing_ramp_control 3 0 ≤ 3 := by
  decide

/-- C1 (amended): provided the target lies at least `BL_ONE_RAMP_UNIT - 1`
away from both ends of the 16-bit range, one call of `timing_ramp_control`
moves the stored period one fixed step from `current` toward `target`,
clamping at `target`, never past it in the direction of travel (with
`current` arbitrary, including within one step of 0 or of 65535), and
repeated application converges to `target` within `|current - target|`
calls. -/
theorem C1_ramp_amended (c t : Nat) (hc : c ≤ 65535)
    (ht5 : BL_ONE_RAMP_UNIT - 1 ≤ t) (ht : t ≤ 65535 - (BL_ONE_RAMP_UNIT - 1)) :
    (t < c → timing_ramp_control c t = max t (c - BL_ONE_RAMP_UNIT) ∧
       t ≤ timing_ramp_control c t ∧ timing_ramp_control c t < c) ∧
    (c < t → timing_ramp_control c t = min t (c + BL_ONE_RAMP_UNIT) ∧
       timing_ramp_control c t ≤ t ∧ c < timing_ramp_control c t) ∧
    (c = t → timing_ramp_control c t = t) ∧
    (fun x => timing_ramp_control x t)^[(c - t) + (t - c)] c = t := by
  simp only [BL_ONE_RAMP_UNIT] at ht5 ht ⊢
  have h1 := ramp_step_eq c t hc (by omega) (by omega)
  simp only [BL_ONE_RAMP_UNIT] at h1
  refine ⟨?_, ?_, ?_, ?_⟩
  · intro h
    rw [h1, if_pos h]
    exact ⟨rfl, by omega, by omega⟩
  · intro h
    rw [h1, if_neg (by omega), if_pos h]
    exact ⟨rfl, by omega, by omega⟩
  · intro h
    rw [h1, if_neg (by omega), if_neg (by omega)]
    exact h
  · exact ramp_converge t (by omega) (by omega) _ c hc le_rfl

/-- C1 witness: the amended theorem at `(current, target) = (1766, 1760)`. -/
theorem C1_ramp_amended_witness :
    (1766 ≤ 65535 ∧ BL_ONE_RAMP_UNIT - 1 ≤ 1760 ∧
      1760 ≤ 65535 - (BL_ONE_RAMP_UNIT - 1)) ∧
    ((1760 < 1766 → timing_ramp_control 1766 1760 = max 1760 (1766 - BL_ONE_RAMP_UNIT) ∧
        1760 ≤ timing_ramp_control 1766 1760 ∧ timing_ramp_control 1766 1760 < 1766) ∧
     (1766 < 1760 → timing_ramp_control 1766 1760 = min 1760 (1766 + BL_ONE_RAMP_UNIT) ∧
        timing_ramp_control 1766 1760 ≤ 1760 ∧ 1766 < timing_ramp_control 1766 1760) ∧
     (1766 = 1760 → timing_ramp_control 1766 1760 = 1760) ∧
     (fun x => timing_ramp_control x 1760)^[(1766 - 1760) + (1760 - 1766)] 1766 = 1760) :=
  ⟨by decide, C1_ramp_amended 1766 1760 (by decide) (by decide) (by decide)⟩

/-! ## C2: closed-loop corrector contract -/

/-- C2: `BL_cl_control` rejects (returns `false`) and writes no period when
no timing-error sample is available or when the sampled error lies outside
the open interval `(-50, 50)`; when a sample is available and strictly
in-bound, it accepts (returns `true`) and writes
`current_period + error/10` (truncating division) as an unsigned 16-bit
store — the residue mod 2^16, which equals the exact sum whenever the sum
does not wrap. -/
theorem C2_cl_control (current : Nat) (e : Int) (hcur : current ≤ 65535) :
    BL_cl_control current none = (false, none) ∧
    ((e ≤ -50 ∨ 50 ≤ e) → BL_cl_control current (some e) = (false, none)) ∧
    (-50 < e → e < 50 →
      (BL_cl_control current (some e)).1 = true ∧
      (BL_cl_control current (some e)).2 ≠ none ∧
      (((BL_cl_control current (some e)).2.getD 0 : Int) =
          ((current : Int) + Int.tdiv e 10).emod 65536) ∧
      (4 ≤ current → current ≤ 65531 →
        ((BL_cl_control current (some e)).2.getD 0 : Int) =
          (current : Int) + Int.tdiv e 10)) := by
  refine ⟨rfl, ?_, ?_⟩
  · intro h
    simp only [BL_cl_control, ERROR_LIMIT]
    rw [if_neg]
    push_neg
    intro h1
    omega
  · intro h1 h2
    have hb := tdiv10_bound e h1 h2
    have hin : -ERROR_LIMIT < e ∧ e < ERROR_LIMIT := by
      simp only [ERROR_LIMIT]; exact ⟨h1, h2⟩
    have hnn : (0 : Int) ≤ ((current : Int) + Int.tdiv e 10).emod 65536 :=
      Int.emod_nonneg _ (by norm_num)
    have heq : BL_cl_control current (some e) =
        (true, some ((((current : Int) + Int.tdiv e 10).emod 65536).toNat)) := by
      simp only [BL_cl_control]
      rw [if_pos hin]
      rfl
    rw [heq]
    refine ⟨rfl, by simp, ?_, ?_⟩
    · simp only [Option.getD_some]
      exact Int.toNat_of_nonneg hnn
    · intro hc4 hc5
      simp only [Option.getD_some]
      rw [Int.toNat_of_nonneg hnn]
      apply Int.emod_eq_of_lt <;> omega

/-- C2 witness: the theorem at `current = 100`, `e = -49` (in-bound, accepted
with correction `-4`) — and the rejection conjuncts at the same inputs. -/
theorem C2_cl_control_witness :
    (100 ≤ 65535) ∧
    (BL_cl_control 100 none = (false, none) ∧
     (((-49 : Int) ≤ -50 ∨ (50 : Int) ≤ -49) →
        BL_cl_control 100 (some (-49)) = (false, none)) ∧
     ((-50 : Int) < -49 → (-49 : Int) < 50 →
       (BL_cl_control 100 (some (-49))).1 = true ∧
       (BL_cl_control 100 (some (-49))).2 ≠ none ∧
       (((BL_cl_control 100 (some (-49))).2.getD 0 : Int) =
           (((100 : Nat) : Int) + Int.tdiv (-49) 10).emod 65536) ∧
       (4 ≤ 100 → (100 : Nat) ≤ 65531 →
         ((BL_cl_control 100 (some (-49))).2.getD 0 : Int) =
           ((100 : Nat) : Int) + Int.tdiv (-49) 10))) :=
  ⟨by decide, C2_cl_control 100 (-49) (by decide)⟩

/-! ## C4: speed setpoint gating -/

/-- C4: `BL_set_speed` — at or below the shutoff threshold the commanded
speed becomes 0 and the drive is stopped, regardless of prior state; above
the shutoff threshold, if additionally above the startup threshold or the
motor is already running, the commanded speed becomes `v`; otherwise
(between the thresholds with the motor not running) it is unchanged. -/
theorem C4_set_speed (speed v : Nat) :
    (v ≤ PWM_PD_SHUTOFF → BL_set_speed speed v = (0, true)) ∧
    (PWM_PD_SHUTOFF < v → (PWM_PD_STARTUP < v ∨ speed ≠ 0) →
        BL_set_speed speed v = (v, false)) ∧
    (PWM_PD_SHUTOFF < v → v ≤ PWM_PD_STARTUP → speed = 0 →
        BL_set_speed speed v = (speed, false)) := by
  simp only [BL_set_speed, PWM_PD_SHUTOFF, PWM_PD_STARTUP]
  refine ⟨?_, ?_, ?_⟩
  · intro h
    rw [if_neg (by omega)]
  · intro h hor
    rw [if_pos (by omega), if_pos (by omega)]
  · intro h h2 h3
    rw [if_pos (by omega), if_neg (by omega)]

/-! ## C6: reset idempotence -/

/-- C6: `BL_reset` is idempotent — a second call yields the same state as one
call — and it leaves the commutation period at `U16_MAX`, the operating
state `BL_STOPPED`, the commanded speed 0, and the fault collaborator
re-initialized (status cleared). -/
theorem C6_reset_idempotent (s : State) :
    BL_reset (BL_reset s) = BL_reset s ∧
    (BL_reset s).BL_comm_period = U16_MAX ∧
    (BL_reset s).BL_opstate = BL_STOPPED ∧
    (BL_reset s).BL_motor_speed = 0 ∧
    (BL_reset s).faultm_status = 0 :=
  ⟨rfl, rfl, rfl, rfl, rfl⟩

/-! ## C9: commutation step dispatcher -/

/-- C9: `BL_Commutation_Step` invokes exactly the drive operation the state
maps to — hold current sector (`Sequence_Step_0`) for ARMING and ALIGN,
advance (`Sequence_Step`) for RAMPUP, OPEN_LOOP and CLOSED_LOOP, and no
drive operation for STOPPED, NONE and any unrecognized value. -/
theorem C9_commutation_dispatch (opstate : Nat) :
    ((opstate = BL_ARMING ∨ opstate = BL_ALIGN) →
        BL_Commutation_Step opstate = DriveOp.sequenceStep0) ∧
    ((opstate = BL_RAMPUP ∨ opstate = BL_OPN_LOOP ∨ opstate = BL_CLS_LOOP) →
        BL_Commutation_Step opstate = DriveOp.sequenceStep) ∧
    ((opstate = BL_STOPPED ∨ opstate = BL_NONE ∨
       (opstate ≠ BL_ARMING ∧ opstate ≠ BL_ALIGN ∧ opstate ≠ BL_RAMPUP ∧
        opstate ≠ BL_OPN_LOOP ∧ opstate ≠ BL_CLS_LOOP)) →
        BL_Commutation_Step opstate = DriveOp.noOp) := by
  simp only [BL_Commutation_Step, BL_ARMING, BL_ALIGN, BL_RAMPUP, BL_OPN_LOOP,
    BL_CLS_LOOP, BL_STOPPED, BL_NONE]
  refine ⟨?_, ?_, ?_⟩
  · intro h
    rw [if_pos h]
  · intro h
    rw [if_neg (by omega), if_pos h]
  · intro h
    rw [if_neg (by omega), if_neg (by omega)]

/-! ## Helper lemmas: control-tick branches -/

/-- A faulted tick: `BL_stop`, zero duty, no state-machine dispatch. -/
lemma tick_fault (s : State) (sample : Option Int) (hf : s.faultm_status ≠ 0) :
    BL_State_Ctrl s sample =
      (BL_stop s, { duty := 0, phase_stop := true, fault_reported := false }) := by
  simp only [BL_State_Ctrl]
  rw [if_pos hf]

/-- Stopping an already-stopped motor changes nothing. -/
lemma stop_of_speed_zero (x : State) (hx : x.BL_motor_speed = 0) :
    BL_stop x = x := by
  cases x
  simp_all [BL_stop]

/-- A CLOSED_LOOP tick with a rejected corrector pass and a positive
hysteresis counter: decrement, no fault report. -/
lemma tick_cls_reject_pos (s : State) (hf : s.faultm_status = 0)
    (hop : s.BL_opstate = BL_CLS_LOOP) (hc : 0 < s.fault_counter) :
    BL_State_Ctrl s none =
      ({ s with fault_counter := s.fault_counter - 1 },
       { duty := s.BL_motor_speed, phase_stop := false, fault_reported := false }) := by
  simp [BL_State_Ctrl, BL_cl_control, hf, hop, BL_ARMING, BL_ALIGN, BL_RAMPUP,
    BL_OPN_LOOP, BL_CLS_LOOP, BL_STOPPED, FAULT_DECR, hc]

/-- A CLOSED_LOOP tick with a rejected corrector pass and an exhausted
hysteresis counter: `Faultm_set` is invoked. -/
lemma tick_cls_reject_zero (s : State) (hf : s.faultm_status = 0)
    (hop : s.BL_opstate = BL_CLS_LOOP) (hc : s.fault_counter = 0) :
    BL_State_Ctrl s none =
      ({ s with faultm_status := 1 },
       { duty := s.BL_motor_speed, phase_stop := false, fault_reported := true }) := by
  simp [BL_State_Ctrl, BL_cl_control, hf, hop, BL_ARMING, BL_ALIGN, BL_RAMPUP,
    BL_OPN_LOOP, BL_CLS_LOOP, BL_STOPPED, hc]

/-- A CLOSED_LOOP tick with an accepted corrector pass: apply the
correction, restore the hysteresis counter to its maximum if below it. -/
lemma tick_cls_accept (s : State) (e : Int) (hf : s.faultm_status = 0)
    (hop : s.BL_opstate = BL_CLS_LOOP) (h1 : -50 < e) (h2 : e < 50) :
    BL_State_Ctrl s (some e) =
      ({ s with
           BL_comm_period :=
             (((s.BL_comm_period : Int) + Int.tdiv e 10).emod 65536).toNat,
           fault_counter :=
             if s.fault_counter < CL_FAULT_CNTR then CL_FAULT_CNTR
             else s.fault_counter },
       { duty := s.BL_motor_speed, phase_stop := false, fault_reported := false }) := by
  have hin : -ERROR_LIMIT < e ∧ e < ERROR_LIMIT := by
    simp only [ERROR_LIMIT]
    exact ⟨h1, h2⟩
  have heq : BL_cl_control s.BL_comm_period (some e) =
      (true, some ((((s.BL_comm_period : Int) + Int.tdiv e 10).emod 65536).toNat)) := by
    simp only [BL_cl_control]
    rw [if_pos hin]
    rfl
  simp [BL_State_Ctrl, heq, hf, hop, BL_ARMING, BL_ALIGN, BL_RAMPUP,
    BL_OPN_LOOP, BL_CLS_LOOP, BL_STOPPED]

/-- A run of rejected CLOSED_LOOP ticks within the counter's budget:
each tick decrements the counter by one; state, period and fault status are
untouched. -/
lemma cls_run :
    ∀ (j : Nat) (s : State), s.faultm_status = 0 → s.BL_opstate = BL_CLS_LOOP →
      j ≤ s.fault_counter →
      ((fun x => (BL_State_Ctrl x none).1)^[j] s).fault_counter = s.fault_counter - j ∧
      ((fun x => (BL_State_Ctrl x none).1)^[j] s).faultm_status = 0 ∧
      ((fun x => (BL_State_Ctrl x none).1)^[j] s).BL_opstate = BL_CLS_LOOP ∧
      ((fun x => (BL_State_Ctrl x none).1)^[j] s).BL_comm_period = s.BL_comm_period := by
  intro j
  induction j with
  | zero =>
    intro s hf hop _
    exact ⟨rfl, hf, hop, rfl⟩
  | succ j ih =>
    intro s hf hop hj
    rw [Function.iterate_succ_apply]
    have hstep := tick_cls_reject_pos s hf hop (by omega)
    rw [hstep]
    have hrec := ih { s with fault_counter := s.fault_counter - 1 } hf hop
      (by show j ≤ s.fault_counter - 1; omega)
    refine ⟨?_, hrec.2.1, hrec.2.2.1, hrec.2.2.2⟩
    rw [hrec.1]
    show s.fault_counter - 1 - j = s.fault_counter - (j + 1)
    omega

/-- An OPEN_LOOP tick never touches the fault hysteresis counter. -/
lemma tick_opn_fc (s : State) (sample : Option Int) (hf : s.faultm_status = 0)
    (hop : s.BL_opstate = BL_OPN_LOOP) :
    (BL_State_Ctrl s sample).1.fault_counter = s.fault_counter := by
  cases hr : BL_cl_control s.BL_comm_period sample with
  | mk b w =>
    cases w <;> cases b <;>
      simp [BL_State_Ctrl, hr, hf, hop, BL_ARMING, BL_ALIGN, BL_RAMPUP,
        BL_OPN_LOOP, BL_CLS_LOOP, BL_STOPPED]

/-- An OPEN_LOOP tick with an accepted corrector pass: the period written by
the corrector (computed from the period read at the start of the tick)
overwrites the ramped value, and the state advances to CLOSED_LOOP. -/
lemma tick_opn_accept (s : State) (e : Int) (hf : s.faultm_status = 0)
    (hop : s.BL_opstate = BL_OPN_LOOP) (h1 : -50 < e) (h2 : e < 50) :
    (BL_State_Ctrl s (some e)).1.BL_comm_period =
      (((s.BL_comm_period : Int) + Int.tdiv e 10).emod 65536).toNat ∧
    (BL_State_Ctrl s (some e)).1.BL_opstate = BL_CLS_LOOP ∧
    (BL_State_Ctrl s (some e)).2 =
      { duty := PWM_PD_STARTUP, phase_stop := false, fault_reported := false } := by
  have hin : -ERROR_LIMIT < e ∧ e < ERROR_LIMIT := by
    simp only [ERROR_LIMIT]
    exact ⟨h1, h2⟩
  have heq : BL_cl_control s.BL_comm_period (some e) =
      (true, some ((((s.BL_comm_period : Int) + Int.tdiv e 10).emod 65536).toNat)) := by
    simp only [BL_cl_control]
    rw [if_pos hin]
    rfl
  simp [BL_State_Ctrl, heq, hf, hop, BL_ARMING, BL_ALIGN, BL_RAMPUP,
    BL_OPN_LOOP, BL_CLS_LOOP, BL_STOPPED]

/-- A RAMPUP tick: ramp the period toward the ramp-end target, output the
rampup duty, and transition exactly when the period at the start of the
tick is already at or past the target. -/
lemma tick_rampup (s : State) (sample : Option Int) (hf : s.faultm_status = 0)
    (hop : s.BL_opstate = BL_RAMPUP) :
    (BL_State_Ctrl s sample).1.BL_comm_period =
        timing_ramp_control s.BL_comm_period BL_CT_RAMP_END ∧
    (BL_State_Ctrl s sample).2 =
        { duty := PWM_PD_RAMPUP, phase_stop := false, fault_reported := false } ∧
    (BL_State_Ctrl s sample).1.BL_opstate =
        (if s.BL_comm_period ≤ BL_CT_RAMP_END then BL_OPN_LOOP else BL_RAMPUP) := by
  simp only [BL_State_Ctrl, hf, hop, BL_ARMING, BL_ALIGN, BL_RAMPUP,
    BL_OPN_LOOP, BL_CLS_LOOP, BL_STOPPED]
  norm_num
  split_ifs <;> simp_all

/-! ## C3: CLOSED_LOOP fault hysteresis -/

/-- C3: in CLOSED_LOOP with the hysteresis counter at `CL_FAULT_CNTR`,
a run of `j ≤ CL_FAULT_CNTR` consecutive rejected ticks leaves the counter
at `CL_FAULT_CNTR - j`; the next rejected tick reports a fault to the fault
collaborator exactly when `j = CL_FAULT_CNTR` (i.e. on the tick after the
counter has reached zero), never earlier; and a single accepted pass at any
point of the run resets the counter to its maximum. -/
theorem C3_hysteresis (s : State) (j : Nat) (e : Int)
    (hf : s.faultm_status = 0) (hop : s.BL_opstate = BL_CLS_LOOP)
    (hmax : s.fault_counter = CL_FAULT_CNTR) (hj : j ≤ CL_FAULT_CNTR)
    (he1 : -50 < e) (he2 : e < 50) :
    ((fun x => (BL_State_Ctrl x none).1)^[j] s).fault_counter = CL_FAULT_CNTR - j ∧
    ((BL_State_Ctrl ((fun x => (BL_State_Ctrl x none).1)^[j] s) none).2.fault_reported
        = true ↔ j = CL_FAULT_CNTR) ∧
    (BL_State_Ctrl ((fun x => (BL_State_Ctrl x none).1)^[j] s)
        (some e)).1.fault_counter = CL_FAULT_CNTR := by
  obtain ⟨h1, h2, h3, _⟩ := cls_run j s hf hop (by omega)
  rw [hmax] at h1
  refine ⟨h1, ?_, ?_⟩
  · by_cases hje : j = CL_FAULT_CNTR
    · rw [tick_cls_reject_zero _ h2 h3 (by omega)]
      simp [hje]
    · rw [tick_cls_reject_pos _ h2 h3 (by omega)]
      simp [hje]
  · rw [tick_cls_accept _ e h2 h3 he1 he2]
    simp only []
    rw [h1]
    split_ifs <;> omega

/-- C3 witness: the theorem at the concrete state `clsMaxState`, `j = 3`,
`e = 0`. -/
theorem C3_hysteresis_witness :
    (clsMaxState.faultm_status = 0 ∧ clsMaxState.BL_opstate = BL_CLS_LOOP ∧
     clsMaxState.fault_counter = CL_FAULT_CNTR ∧ 3 ≤ CL_FAULT_CNTR ∧
     (-50 : Int) < 0 ∧ (0 : Int) < 50) ∧
    (((fun x => (BL_State_Ctrl x none).1)^[3] clsMaxState).fault_counter
        = CL_FAULT_CNTR - 3 ∧
     ((BL_State_Ctrl ((fun x => (BL_State_Ctrl x none).1)^[3] clsMaxState)
         none).2.fault_reported = true ↔ 3 = CL_FAULT_CNTR) ∧
     (BL_State_Ctrl ((fun x => (BL_State_Ctrl x none).1)^[3] clsMaxState)
         (some 0)).1.fault_counter = CL_FAULT_CNTR) :=
  ⟨by decide, C3_hysteresis clsMaxState 3 0 (by decide) (by decide) (by decide)
    (by decide) (by decide) (by decide)⟩

/-! ## C5: fault freeze -/

/-- C5: while the fault collaborator reports a nonzero status, every tick
forces the duty command to zero and performs Stop (drive disabled, speed
zeroed) while leaving the operating state, commutation period and fault
status unchanged; this persists over any number of subsequent ticks; and
`BL_reset` yields state STOPPED with commanded speed 0. -/
theorem C5_fault_freeze (s : State) (sample : Option Int) (n : Nat)
    (hf : s.faultm_status ≠ 0) :
    BL_State_Ctrl s sample =
      (BL_stop s, { duty := 0, phase_stop := true, fault_reported := false }) ∧
    (BL_stop s).BL_opstate = s.BL_opstate ∧
    (BL_stop s).BL_comm_period = s.BL_comm_period ∧
    (BL_stop s).faultm_status = s.faultm_status ∧
    (BL_stop s).BL_motor_speed = 0 ∧
    (fun x => (BL_State_Ctrl x sample).1)^[n + 1] s = BL_stop s ∧
    (BL_reset s).BL_opstate = BL_STOPPED ∧
    (BL_reset s).BL_motor_speed = 0 := by
  refine ⟨tick_fault s sample hf, rfl, rfl, rfl, rfl, ?_, rfl, rfl⟩
  induction n with
  | zero =>
    simp only [zero_add, Function.iterate_one]
    show (BL_State_Ctrl s sample).1 = BL_stop s
    rw [tick_fault s sample hf]
  | succ n ih =>
    rw [Function.iterate_succ_apply']
    rw [ih]
    show (BL_State_Ctrl (BL_stop s) sample).1 = BL_stop s
    rw [tick_fault (BL_stop s) sample hf]
    exact stop_of_speed_zero _ rfl

/-- C5 witness: the theorem at the concrete faulted state, `sample = none`,
`n = 2`. -/
theorem C5_fault_freeze_witness :
    (faultedState.faultm_status ≠ 0) ∧
    (BL_State_Ctrl faultedState none =
      (BL_stop faultedState,
       { duty := 0, phase_stop := true, fault_reported := false }) ∧
     (BL_stop faultedState).BL_opstate = faultedState.BL_opstate ∧
     (BL_stop faultedState).BL_comm_period = faultedState.BL_comm_period ∧
     (BL_stop faultedState).faultm_status = faultedState.faultm_status ∧
     (BL_stop faultedState).BL_motor_speed = 0 ∧
     (fun x => (BL_State_Ctrl x none).1)^[2 + 1] faultedState = BL_stop faultedState ∧
     (BL_reset faultedState).BL_opstate = BL_STOPPED ∧
     (BL_reset faultedState).BL_motor_speed = 0) :=
  ⟨by decide, C5_fault_freeze faultedState none 2 (by decide)⟩

/-! ## C7: fault hysteresis counter across CLOSED_LOOP entries -/

/-- C7 counterexample: a state in OPEN_LOOP whose (function-static) counter
was left at 0 enters CLOSED_LOOP on an accepted tick with the counter still
0, not `CL_FAULT_CNTR` — the counter is not reinitialized on entry. -/
theorem C7_counterexample :
    (BL_State_Ctrl opnZeroCntrState (some 0)).1.BL_opstate = BL_CLS_LOOP ∧
    (BL_State_Ctrl opnZeroCntrState (some 0)).1.fault_counter = 0 ∧
    (0 : Nat) ≠ CL_FAULT_CNTR := by decide

/-- C7 (amended): the fault hysteresis counter is a function-static of the
control task: it starts at `CL_FAULT_CNTR` at program start, and the tick
that enters CLOSED_LOOP (any OPEN_LOOP tick) leaves it unchanged — on
entry it retains whatever value it had when CLOSED_LOOP was last left, and
is restored to its maximum only by an accepted corrector pass inside
CLOSED_LOOP. -/
theorem C7_counter_amended (s : State) (sample : Option Int)
    (hf : s.faultm_status = 0) (hop : s.BL_opstate = BL_OPN_LOOP) :
    (BL_State_Ctrl s sample).1.fault_counter = s.fault_counter ∧
    initState.fault_counter = CL_FAULT_CNTR :=
  ⟨tick_opn_fc s sample hf hop, rfl⟩

/-- C7 witness: the amended theorem at the concrete OPEN_LOOP state with
counter 0 and an accepted sample. -/
theorem C7_counter_amended_witness :
    (opnZeroCntrState.faultm_status = 0 ∧
     opnZeroCntrState.BL_opstate = BL_OPN_LOOP) ∧
    ((BL_State_Ctrl opnZeroCntrState (some 0)).1.fault_counter =
        opnZeroCntrState.fault_counter ∧
     initState.fault_counter = CL_FAULT_CNTR) :=
  ⟨by decide, C7_counter_amended opnZeroCntrState (some 0) (by decide) (by decide)⟩

/-! ## C8: RAMPUP behaviour and exit condition -/

/-- C8 counterexample: in RAMPUP at period 1766 (one step above the 1760
ramp-end target), the tick ramps the period to the target — the ramped
value reaches the target on this very tick — yet the state remains RAMPUP
instead of transitioning to OPEN_LOOP on the same tick. -/
theorem C8_rampup_counterexample :
    (BL_State_Ctrl rampupNearEndState none).1.BL_comm_period = BL_CT_RAMP_END ∧
    (BL_State_Ctrl rampupNearEndState none).1.BL_opstate = BL_RAMPUP ∧
    BL_RAMPUP ≠ BL_OPN_LOOP := by decide

/-- C8 (amended): each RAMPUP tick ramps the period one step toward the
fixed ramp-end target and outputs the fixed rampup duty; the transition to
OPEN_LOOP happens on the tick at whose start the period has already reached
or passed the target — i.e. one tick after the ramped value first reaches
it, not on the same tick. -/
theorem C8_rampup_amended (s : State) (sample : Option Int)
    (hf : s.faultm_status = 0) (hop : s.BL_opstate = BL_RAMPUP) :
    (BL_State_Ctrl s sample).1.BL_comm_period =
        timing_ramp_control s.BL_comm_period BL_CT_RAMP_END ∧
    (BL_State_Ctrl s sample).2.duty = PWM_PD_RAMPUP ∧
    (BL_State_Ctrl s sample).1.BL_opstate =
        (if s.BL_comm_period ≤ BL_CT_RAMP_END then BL_OPN_LOOP else BL_RAMPUP) := by
  obtain ⟨h1, h2, h3⟩ := tick_rampup s sample hf hop
  exact ⟨h1, by rw [h2], h3⟩

/-- C8 witness: the amended theorem at the concrete RAMPUP state with
period 1766. -/
theorem C8_rampup_amended_witness :
    (rampupNearEndState.faultm_status = 0 ∧
     rampupNearEndState.BL_opstate = BL_RAMPUP) ∧
    ((BL_State_Ctrl rampupNearEndState none).1.BL_comm_period =
        timing_ramp_control rampupNearEndState.BL_comm_period BL_CT_RAMP_END ∧
     (BL_State_Ctrl rampupNearEndState none).2.duty = PWM_PD_RAMPUP ∧
     (BL_State_Ctrl rampupNearEndState none).1.BL_opstate =
        (if rampupNearEndState.BL_comm_period ≤ BL_CT_RAMP_END then BL_OPN_LOOP
         else BL_RAMPUP)) :=
  ⟨by decide, C8_rampup_amended rampupNearEndState none (by decide) (by decide)⟩

/-! ## C10: OPEN_LOOP acceptance overwrites the ramp -/

/-- C10: on an accepted OPEN_LOOP tick, the period stored at the end of the
tick equals the period read at the start of the tick plus `error/10`
(as an unsigned 16-bit store; exactly, whenever the sum does not wrap) —
the ramp adjustment applied earlier in the same tick is overwritten and
discarded — and the state transitions to CLOSED_LOOP. -/
theorem C10_openloop_overwrite (s : State) (e : Int)
    (hf : s.faultm_status = 0) (hop : s.BL_opstate = BL_OPN_LOOP)
    (he1 : -50 < e) (he2 : e < 50) (hp : s.BL_comm_period ≤ 65535) :
    ((BL_State_Ctrl s (some e)).1.BL_comm_period : Int) =
        ((s.BL_comm_period : Int) + Int.tdiv e 10).emod 65536 ∧
    (4 ≤ s.BL_comm_period → s.BL_comm_period ≤ 65531 →
      ((BL_State_Ctrl s (some e)).1.BL_comm_period : Int) =
        (s.BL_comm_period : Int) + Int.tdiv e 10) ∧
    (BL_State_Ctrl s (some e)).1.BL_opstate = BL_CLS_LOOP := by
  obtain ⟨h1, h2, _⟩ := tick_opn_accept s e hf hop he1 he2
  have hb := tdiv10_bound e he1 he2
  have hnn : (0 : Int) ≤ ((s.BL_comm_period : Int) + Int.tdiv e 10).emod 65536 :=
    Int.emod_nonneg _ (by norm_num)
  rw [h1]
  refine ⟨Int.toNat_of_nonneg hnn, ?_, h2⟩
  intro h4 h5
  rw [Int.toNat_of_nonneg hnn]
  apply Int.emod_eq_of_lt <;> omega

/-- C10 witness: the theorem at the concrete OPEN_LOOP state with period
1866 and `e = -49` (correction `-4`). -/
theorem C10_openloop_overwrite_witness :
    (opnZeroCntrState.faultm_status = 0 ∧
     opnZeroCntrState.BL_opstate = BL_OPN_LOOP ∧
     (-50 : Int) < -49 ∧ (-49 : Int) < 50 ∧
     opnZeroCntrState.BL_comm_period ≤ 65535) ∧
    (((BL_State_Ctrl opnZeroCntrState (some (-49))).1.BL_comm_period : Int) =
        ((opnZeroCntrState.BL_comm_period : Int) + Int.tdiv (-49) 10).emod 65536 ∧
     (4 ≤ opnZeroCntrState.BL_comm_period → opnZeroCntrState.BL_comm_period ≤ 65531 →
       ((BL_State_Ctrl opnZeroCntrState (some (-49))).1.BL_comm_period : Int) =
        (opnZeroCntrState.BL_comm_period : Int) + Int.tdiv (-49) 10) ∧
     (BL_State_Ctrl opnZeroCntrState (some (-49))).1.BL_opstate = BL_CLS_LOOP) :=
  ⟨by decide, C10_openloop_overwrite opnZeroCntrState (-49) (by decide) (by decide)
    (by decide) (by decide) (by decide)⟩

end BLDC
